import Mathlib

/-!
Shallow embedding of the phased harvesting engine of
src/automate_vitals.py.

The embedding covers the response classifier and extractor
(handle_response), the date-range validator (is_valid_date_range), the
grouping and top-3 ranking logic shared by the cluster extractions, the
bounded 1-second-poll wait loops, and the per-app phase sequencer
(collect_app_data).

Modelling conventions:
- Python floats are modelled as rationals; Python round(x, 2) is
  modelled as round2 below (rounding half away from the even-tie only at
  exact halves, which none of the claims exercise).
- ISO timestamp strings are modelled by their parsed calendar day as an
  integer; Option.none stands for an absent or unparseable field, so a
  datetime.fromisoformat failure caught by the source's try/except
  corresponds to the none case.
- JSON payloads are modelled post-parse as typed structures; a response
  whose body does not parse as the shape a branch expects corresponds to
  the source's caught exception, i.e. the branch leaves the state
  unchanged.  Vendor string-encoded counts are modelled as the natural
  numbers they parse to.
- The source's closed-over nonlocal mutable variables become fields of
  AppState; every branch of handle_response is translated as a function
  AppState -> AppState applied in the source's textual order.
- The debug-only lists (metrics_requests, request_count) and print
  statements carry no data flow and are omitted.
-/

namespace AV

/-- Python round(x, 2): two-decimal rounding of a rational. -/
def round2 (q : ℚ) : ℚ := (round (q * 100) : ℚ) / 100

/-- The navigation phases of collect_app_data (the current_phase strings). -/
inductive Phase where
  | metrics
  | crashes
  | non_fatals
  | anr_metrics
  | anrs
  | ios_metrics
  | ios_crashes
  | ios_non_fatals
  | up_anrs
  | ios_dominant_release
  | android_dominant_release
  | android_p90_launch
deriving DecidableEq, Repr

/-- current_phase.startswith of the string ios, as used by the issue handler. -/
def Phase.startsWithIos : Phase → Bool
  | .ios_metrics => true
  | .ios_crashes => true
  | .ios_non_fatals => true
  | .ios_dominant_release => true
  | _ => false

/-- One element of intervalMetrics in a metrics:getMetricsReport payload. -/
structure IntervalMetric where
  startTime : Option ℤ
  endTime : Option ℤ
  ratioVal : Option ℚ
  totalCrashlyticsInstalls : Option ℕ
deriving DecidableEq, Repr

/-- One element of groupedMetrics in a metrics:getMetricsReport payload. -/
structure GroupedMetric where
  fatality : Option String
  intervalMetrics : List IntervalMetric
deriving DecidableEq, Repr

/-- One row of topIssues in a listFirebaseTopOpenIssues payload. -/
structure IssueRow where
  title : Option String
  subtitle : Option String
  impactedDevicesCount : ℕ
  eventsCount : ℕ
deriving DecidableEq, Repr

/-- One ANR cluster row of a Play-console errorClusters payload. -/
structure AnrRow where
  clusterName : Option String
  affectedUsers : ℕ
  eventCount : ℕ
  impactFraction : ℚ
deriving DecidableEq, Repr

/-- A dimensionCompoundValues entry: either a bare string or a value wrapper. -/
inductive DimVal where
  | plain (s : String)
  | wrapped (value : String)
deriving DecidableEq, Repr

/-- The version string the source extracts from either encoding. -/
def DimVal.extract : DimVal → String
  | .plain s => s
  | .wrapped v => v

/-- One responseRows entry of a dominant-release (venus) payload. -/
structure DomRow where
  dimensionCompoundValues : List DimVal
deriving DecidableEq, Repr

/-- One responses entry of a dominant-release (venus) payload. -/
structure DomEntry where
  responseRows : List DomRow
deriving DecidableEq, Repr

/-- One per-day projection of a launch-time timeline, with its parsed
start date and its percentile buckets. -/
structure Projection where
  startDate : Option ℤ
  quantiles : List ℚ
deriving DecidableEq, Repr

/-- One timeline of a listTimelines payload. -/
structure Timeline where
  projections : List Projection
deriving DecidableEq, Repr

/-- The parsed body of an observed network response. -/
inductive Payload where
  | metricsReport (groupedMetrics : List GroupedMetric)
  | topIssues (rows : List IssueRow)
  | playConsoleAnrs (rows : List AnrRow)
  | dominantRelease (responses : List DomEntry)
  | launchTimelines (timelines : List Timeline)
  | malformed
deriving DecidableEq, Repr

/-- An observed network response: the URL/body signature tests the source
performs, plus the parsed payload. -/
structure Request where
  urlHasListTimelines : Bool
  urlHasAppVersionFilter : Bool
  urlHasVenusReport : Bool
  urlHasPlayConsoleClusters : Bool
  bodyHasAnrCriteria : Bool
  urlHasMetricsReport : Bool
  urlHasTopIssues : Bool
  payload : Payload
deriving DecidableEq, Repr

/-- One ranked issue entry as stored in top_crashes / top_non_fatals / all_anrs. -/
structure IssueEntry where
  rank : ℕ
  name : String
  impact_percentage : ℕ
  impacted_devices : ℕ
  events : ℕ
deriving DecidableEq, Repr

/-- One ranked Play-console ANR entry as stored in up_anrs. -/
structure UpAnrEntry where
  name : String
  impact_percentage : ℚ
  affected_users : ℕ
  events : ℕ
deriving DecidableEq, Repr

/-- The android section of app_data.  crash_free_rates and total_installs
are dicts written wholesale: none models the initial empty dict, and the
pair components are the fatal and non_fatal keys in that order. -/
structure AndroidData where
  crash_free_rates : Option (Option ℚ × Option ℚ)
  total_installs : Option (ℕ × ℕ)
  top_crashes : List IssueEntry
  top_non_fatals : List IssueEntry
  all_anrs : List IssueEntry
  up_anrs : List UpAnrEntry
  p90_launch_time_seconds : Option ℚ
  dominant_release : Option String
deriving DecidableEq, Repr

/-- The ios section of app_data.  The crash_free_rates and total_installs
dicts are written key by key, so each key is its own Option field; none
models the key being absent. -/
structure IosData where
  fatal_rate : Option ℚ
  non_fatal_rate : Option ℚ
  fatal_installs : Option ℕ
  non_fatal_installs : Option ℕ
  top_crashes : List IssueEntry
  top_non_fatals : List IssueEntry
  dominant_release : Option String
deriving DecidableEq, Repr

/-- The per-app result record being assembled. -/
structure AppData where
  android : AndroidData
  ios : IosData
deriving DecidableEq, Repr

/-- The closed-over mutable state of collect_app_data: the phase cursor,
the completion flags, the install-count variables and the result record. -/
structure AppState where
  current_phase : Phase
  metrics_captured : Bool
  crashes_captured : Bool
  non_fatals_captured : Bool
  anr_metrics_captured : Bool
  ios_metrics_captured : Bool
  ios_crashes_captured : Bool
  ios_non_fatals_captured : Bool
  play_console_anrs_captured : Bool
  ios_dominant_release_captured : Bool
  android_dominant_release_captured : Bool
  android_p90_launch_captured : Bool
  ios_nonfatal_issues_processed : Bool
  fatal_installs : ℕ
  non_fatal_installs : ℕ
  anr_installs : ℕ
  ios_fatal_installs : ℕ
  ios_non_fatal_installs : ℕ
  app_data : AppData
deriving DecidableEq, Repr

/-- is_valid_date_range of the source: both timestamps parse, the end
date is the session's current date, and the start date is
DATE_RANGE_DAYS - 1 days earlier. -/
def is_valid_date_range (today : ℤ) (rangeDays : ℕ) (startTime endTime : Option ℤ) : Bool :=
  match startTime, endTime with
  | some s, some e => decide (e = today ∧ s = today - (rangeDays - 1 : ℕ))
  | _, _ => false

/-- The guard the metrics branches apply: groupedMetrics is nonempty, its
first entry has intervalMetrics, and that first interval passes
is_valid_date_range. -/
def payloadDateValid (today : ℤ) (rangeDays : ℕ) (gm : List GroupedMetric) : Bool :=
  match gm with
  | m :: _ =>
    match m.intervalMetrics with
    | iv :: _ => is_valid_date_range today rangeDays iv.startTime iv.endTime
    | [] => false
  | [] => false

/-! Generic grouping: the insertion-ordered dict of the source, as an
association list updated in place (existing key merged, new key appended). -/

/-- Insert value v under key k: merge into the existing entry, else append. -/
def updAssoc {β : Type} (merge : β → β → β) : List (String × β) → String → β → List (String × β)
  | [], k, v => [(k, v)]
  | (k0, v0) :: rest, k, v =>
    if k0 = k then (k0, merge v0 v) :: rest
    else (k0, v0) :: updAssoc merge rest k v

/-- Dict lookup on the association list. -/
def findVal {β : Type} (k : String) : List (String × β) → Option β
  | [] => none
  | (k0, v0) :: rest => if k0 = k then some v0 else findVal k rest

/-! Stable descending sort: Python's sorted(key=..., reverse=True) is a
stable sort; insertion placing each earlier element before later
equal-key elements reproduces it. -/

/-- Insert x into a descending list, before the first element whose key
is at most key x (so before equal keys, preserving first-seen order). -/
def insertByKeyDesc {α β : Type} [LinearOrder β] (key : α → β) (x : α) : List α → List α
  | [] => [x]
  | y :: ys => if key y ≤ key x then x :: y :: ys else y :: insertByKeyDesc key x ys

/-- Stable descending sort by key. -/
def sortByKeyDesc {α β : Type} [LinearOrder β] (key : α → β) : List α → List α
  | [] => []
  | x :: xs => insertByKeyDesc key x (sortByKeyDesc key xs)

/-! The issue-cluster extraction (listFirebaseTopOpenIssues). -/

/-- A grouped_issues dict value. -/
structure GIssue where
  title : String
  original_title : String
  subtitle : String
  impactedDevicesCount : ℕ
  eventsCount : ℕ
deriving DecidableEq, Repr

/-- Merging a new row into an existing group sums the device and event
counts and keeps the stored names of the first row. -/
def mergeIssue (g0 gn : GIssue) : GIssue :=
  { g0 with
    impactedDevicesCount := g0.impactedDevicesCount + gn.impactedDevicesCount,
    eventsCount := g0.eventsCount + gn.eventsCount }

/-- caption.get title with the Unknown default. -/
def IssueRow.titleD (r : IssueRow) : String := r.title.getD "Unknown"

/-- caption.get subtitle with the Unknown default. -/
def IssueRow.subtitleD (r : IssueRow) : String := r.subtitle.getD "Unknown"

/-- group_key of the source: title when keying by title, else subtitle. -/
def issueKey (keyByTitle : Bool) (r : IssueRow) : String :=
  if keyByTitle then r.titleD else r.subtitleD

/-- display_title of the source: title when keying by title, else the
subtitle with fallback to title when the subtitle defaulted to Unknown. -/
def issueDisplay (keyByTitle : Bool) (r : IssueRow) : String :=
  if keyByTitle then r.titleD
  else if r.subtitleD ≠ "Unknown" then r.subtitleD else r.titleD

/-- The fresh dict value built from one row. -/
def issueInit (keyByTitle : Bool) (r : IssueRow) : GIssue :=
  { title := issueDisplay keyByTitle r,
    original_title := r.titleD,
    subtitle := r.subtitleD,
    impactedDevicesCount := r.impactedDevicesCount,
    eventsCount := r.eventsCount }

/-- grouped_issues for the non-iOS phases: rows folded into the dict. -/
def groupIssueRows (keyByTitle : Bool) (rows : List IssueRow) : List (String × GIssue) :=
  rows.foldl (fun m r => updAssoc mergeIssue m (issueKey keyByTitle r) (issueInit keyByTitle r)) []

/-- grouped_issues for the iOS phases: each row under a fresh unique key,
i.e. no grouping; the stored title is the subtitle on the iOS non-fatals
phase and the title otherwise. -/
def iosIssueEntries (useSubtitleName : Bool) (rows : List IssueRow) : List GIssue :=
  rows.map (fun r =>
    { title := if useSubtitleName then r.subtitleD else r.titleD,
      original_title := r.titleD,
      subtitle := r.subtitleD,
      impactedDevicesCount := r.impactedDevicesCount,
      eventsCount := r.eventsCount })

/-- The grouped_issues dict values, in insertion order, for a phase. -/
def issueGroupValues (ph : Phase) (rows : List IssueRow) : List GIssue :=
  if ph.startsWithIos then iosIssueEntries (ph = Phase.ios_non_fatals) rows
  else (groupIssueRows (decide (ph = Phase.anrs) || ph.startsWithIos) rows).map Prod.snd

/-- int(devices / total * 100) of the source, with the zero-total guard. -/
def impactPercent (total devices : ℕ) : ℕ :=
  if 0 < total then devices * 100 / total else 0

/-- The ranked entries built from the sorted top list (ranks start at 1). -/
def buildEntries (total : ℕ) (sorted : List GIssue) : List IssueEntry :=
  sorted.enum.map (fun p =>
    { rank := p.1 + 1,
      name := p.2.title,
      impact_percentage := impactPercent total p.2.impactedDevicesCount,
      impacted_devices := p.2.impactedDevicesCount,
      events := p.2.eventsCount })

/-- The full issue extraction for one phase and one payload: group, sort
descending by impacted devices, keep the top 3, rank. -/
def topIssueEntries (ph : Phase) (total : ℕ) (rows : List IssueRow) : List IssueEntry :=
  buildEntries total
    ((sortByKeyDesc (fun g => g.impactedDevicesCount) (issueGroupValues ph rows)).take 3)

/-- Store the ranked entries in the list the active phase owns and set
that phase's completion flag (the anrs phase has no flag of its own). -/
def applyIssueEntries (ph : Phase) (entries : List IssueEntry) (s : AppState) : AppState :=
  match ph with
  | .crashes =>
    { s with app_data.android.top_crashes := s.app_data.android.top_crashes ++ entries,
             crashes_captured := true }
  | .non_fatals =>
    { s with app_data.android.top_non_fatals := s.app_data.android.top_non_fatals ++ entries,
             non_fatals_captured := true }
  | .anrs =>
    { s with app_data.android.all_anrs := s.app_data.android.all_anrs ++ entries }
  | .ios_crashes =>
    { s with app_data.ios.top_crashes := s.app_data.ios.top_crashes ++ entries,
             ios_crashes_captured := true }
  | .ios_non_fatals =>
    { s with app_data.ios.top_non_fatals := s.app_data.ios.top_non_fatals ++ entries,
             ios_non_fatals_captured := true }
  | _ => s

/-- Parse the payload as topIssues and run the extraction, else the
json() call raised and the state is unchanged. -/
def processWith (req : Request) (s : AppState) (ph : Phase) (total : ℕ) : AppState :=
  match req.payload with
  | .topIssues rows => applyIssueEntries ph (topIssueEntries ph total rows) s
  | _ => s

/-- The phase-dispatch chain at the head of the top-issues handler,
including the flag set when iOS non-fatal issues precede their installs. -/
def issuesDispatch (req : Request) (s : AppState) : AppState :=
  if s.current_phase = Phase.crashes ∧ s.crashes_captured = false then
    processWith req s Phase.crashes s.fatal_installs
  else if s.current_phase = Phase.non_fatals ∧ s.non_fatals_captured = false then
    processWith req s Phase.non_fatals s.non_fatal_installs
  else if s.current_phase = Phase.anrs ∧ s.anr_metrics_captured = true then
    processWith req s Phase.anrs s.anr_installs
  else if s.current_phase = Phase.ios_crashes ∧ s.ios_metrics_captured = true then
    processWith req s Phase.ios_crashes s.ios_fatal_installs
  else if s.current_phase = Phase.ios_non_fatals ∧ s.ios_metrics_captured = true then
    processWith req s Phase.ios_non_fatals s.ios_non_fatal_installs
  else if s.current_phase = Phase.ios_non_fatals ∧ s.ios_metrics_captured = false then
    { s with ios_nonfatal_issues_processed := true }
  else s

/-! The Android metrics-report extraction. -/

/-- The loop accumulator of the Android metrics branch: the per-response
rate locals start at None and the install counts start at the nonlocal
variables. -/
structure RateAcc where
  fatal_rate : Option ℚ
  non_fatal_rate : Option ℚ
  fatal_installs : ℕ
  non_fatal_installs : ℕ
deriving DecidableEq, Repr

/-- One iteration of the loop over groupedMetrics. -/
def rateStep (acc : RateAcc) (m : GroupedMetric) : RateAcc :=
  match m.fatality, m.intervalMetrics with
  | some f, iv :: _ =>
    if f = "NON_FATAL" then
      { acc with
        non_fatal_rate := some (round2 ((iv.ratioVal.getD 0) * 100)),
        non_fatal_installs := iv.totalCrashlyticsInstalls.getD 0 }
    else if f = "FATAL" then
      { acc with
        fatal_rate := some (round2 ((iv.ratioVal.getD 0) * 100)),
        fatal_installs := iv.totalCrashlyticsInstalls.getD 0 }
    else acc
  | _, _ => acc

/-- The Android metrics branch body: on a valid date range, extract the
rates and installs and write both dicts wholesale. -/
def androidMetricsBody (today : ℤ) (rangeDays : ℕ) (req : Request) (s : AppState) : AppState :=
  match req.payload with
  | .metricsReport gm =>
    if payloadDateValid today rangeDays gm then
      let acc := gm.foldl rateStep
        { fatal_rate := none, non_fatal_rate := none,
          fatal_installs := s.fatal_installs, non_fatal_installs := s.non_fatal_installs }
      { s with
        fatal_installs := acc.fatal_installs,
        non_fatal_installs := acc.non_fatal_installs,
        metrics_captured := true,
        app_data.android.crash_free_rates := some (acc.fatal_rate, acc.non_fatal_rate),
        app_data.android.total_installs := some (acc.fatal_installs, acc.non_fatal_installs) }
    else s
  | _ => s

/-- A grouped metric with the ANR fatality and nonempty intervalMetrics. -/
def isAnrMetric (m : GroupedMetric) : Bool :=
  match m.fatality, m.intervalMetrics with
  | some f, _ :: _ => f = "ANR"
  | _, _ => false

/-- The ANR-metrics branch body: on a valid date range, take the first
ANR metric's install count. -/
def anrMetricsBody (today : ℤ) (rangeDays : ℕ) (req : Request) (s : AppState) : AppState :=
  match req.payload with
  | .metricsReport gm =>
    if payloadDateValid today rangeDays gm then
      match gm.find? isAnrMetric with
      | some m =>
        match m.intervalMetrics with
        | iv :: _ =>
          { s with anr_installs := iv.totalCrashlyticsInstalls.getD 0,
                   anr_metrics_captured := true }
        | [] => s
      | none => s
    else s
  | _ => s

/-- One iteration of the iOS metrics loop: always refresh the install
variable; write the rate and installs keys only on the matching phase
and only when the rate key is still absent. -/
def iosRateStep (ph : Phase) (s : AppState) (m : GroupedMetric) : AppState :=
  match m.fatality, m.intervalMetrics with
  | some f, iv :: _ =>
    if f = "FATAL" then
      let installs := iv.totalCrashlyticsInstalls.getD 0
      let s1 := { s with ios_fatal_installs := installs }
      if (ph = Phase.ios_crashes ∨ ph = Phase.ios_metrics)
          ∧ s1.app_data.ios.fatal_rate = none then
        { s1 with
          app_data.ios.fatal_rate := some (round2 ((iv.ratioVal.getD 0) * 100)),
          app_data.ios.fatal_installs := some installs }
      else s1
    else if f = "NON_FATAL" then
      let installs := iv.totalCrashlyticsInstalls.getD 0
      let s1 := { s with ios_non_fatal_installs := installs }
      if (ph = Phase.ios_non_fatals ∨ ph = Phase.ios_metrics)
          ∧ s1.app_data.ios.non_fatal_rate = none then
        { s1 with
          app_data.ios.non_fatal_rate := some (round2 ((iv.ratioVal.getD 0) * 100)),
          app_data.ios.non_fatal_installs := some installs }
      else s1
    else s
  | _, _ => s

/-- The iOS metrics branch body: on a valid date range, fold the loop and
set ios_metrics_captured on the ios_metrics and ios_non_fatals phases. -/
def iosMetricsBody (today : ℤ) (rangeDays : ℕ) (req : Request) (s : AppState) : AppState :=
  match req.payload with
  | .metricsReport gm =>
    if payloadDateValid today rangeDays gm then
      let s1 := gm.foldl (iosRateStep s.current_phase) s
      if s.current_phase = Phase.ios_metrics ∨ s.current_phase = Phase.ios_non_fatals then
        { s1 with ios_metrics_captured := true }
      else s1
    else s
  | _ => s

/-- The if/elif chain over the metrics-report and top-issues signatures,
in the source's order. -/
def metricsChain (today : ℤ) (rangeDays : ℕ) (req : Request) (s : AppState) : AppState :=
  if s.metrics_captured = false ∧ req.urlHasMetricsReport = true then
    androidMetricsBody today rangeDays req s
  else if s.current_phase = Phase.anr_metrics ∧ req.urlHasMetricsReport = true then
    anrMetricsBody today rangeDays req s
  else if (s.current_phase = Phase.ios_metrics ∨ s.current_phase = Phase.ios_crashes
      ∨ s.current_phase = Phase.ios_non_fatals) ∧ req.urlHasMetricsReport = true then
    iosMetricsBody today rangeDays req s
  else if req.urlHasTopIssues = true then
    issuesDispatch req s
  else s

/-! The Play-console ANR extraction. -/

/-- A grouped_anrs dict value. -/
structure AnrAcc where
  affected_users : ℕ
  event_count : ℕ
  impact_percentage : ℚ
deriving DecidableEq, Repr

/-- Merging a duplicate cluster name sums all three fields. -/
def mergeAnr (a0 an : AnrAcc) : AnrAcc :=
  { affected_users := a0.affected_users + an.affected_users,
    event_count := a0.event_count + an.event_count,
    impact_percentage := a0.impact_percentage + an.impact_percentage }

/-- The cluster name with the Unknown default. -/
def AnrRow.nameD (r : AnrRow) : String := r.clusterName.getD "Unknown"

/-- The fresh dict value from one Play-console row: the vendor impact
fraction is converted to a percentage. -/
def anrInit (r : AnrRow) : AnrAcc :=
  { affected_users := r.affectedUsers,
    event_count := r.eventCount,
    impact_percentage := r.impactFraction * 100 }

/-- grouped_anrs: rows folded into the insertion-ordered dict. -/
def groupAnrRows (rows : List AnrRow) : List (String × AnrAcc) :=
  rows.foldl (fun m r => updAssoc mergeAnr m r.nameD (anrInit r)) []

/-- Sort descending by the unrounded impact percentage, keep the top 3,
round the impact for output. -/
def upAnrEntries (rows : List AnrRow) : List UpAnrEntry :=
  ((sortByKeyDesc (fun p => p.2.impact_percentage) (groupAnrRows rows)).take 3).map
    (fun p =>
      { name := p.1,
        impact_percentage := round2 p.2.impact_percentage,
        affected_users := p.2.affected_users,
        events := p.2.event_count })

/-- The Play-console ANR branch: active only on the up_anrs phase with
the matching clusters URL and the request-body criteria; the up_anrs
list is replaced wholesale. -/
def upAnrsBranch (req : Request) (s : AppState) : AppState :=
  if s.current_phase = Phase.up_anrs ∧ req.urlHasPlayConsoleClusters = true then
    if req.bodyHasAnrCriteria = true then
      match req.payload with
      | .playConsoleAnrs rows =>
        { s with app_data.android.up_anrs := upAnrEntries rows,
                 play_console_anrs_captured := true }
      | _ => s
    else s
  else s

/-! The dominant-release extraction. -/

/-- The version string, from the third responses entry's first row's
first compound dimension value, accepting both encodings. -/
def dominantVersion (resps : List DomEntry) : Option String :=
  match resps[2]? with
  | some entry =>
    match entry.responseRows with
    | row :: _ =>
      match row.dimensionCompoundValues with
      | v :: _ => some v.extract
      | [] => none
    | [] => none
  | none => none

/-- The dominant-release branch: active on the two dominant-release
phases with the venus reportId URL; writes the platform the phase names. -/
def dominantBranch (req : Request) (s : AppState) : AppState :=
  if (s.current_phase = Phase.ios_dominant_release
      ∨ s.current_phase = Phase.android_dominant_release)
      ∧ req.urlHasVenusReport = true then
    match req.payload with
    | .dominantRelease resps =>
      match dominantVersion resps with
      | some v =>
        if s.current_phase = Phase.ios_dominant_release then
          { s with ios_dominant_release_captured := true,
                   app_data.ios.dominant_release := some v }
        else
          { s with android_dominant_release_captured := true,
                   app_data.android.dominant_release := some v }
      | none => s
    | _ => s
  else s

/-! The P90 launch-time extraction. -/

/-- A projection whose start date parsed and equals today or yesterday. -/
def projectionDateOk (today : ℤ) (p : Projection) : Bool :=
  match p.startDate with
  | some d => decide (d = today ∨ d = today - 1)
  | none => false

/-- The source's loop with break: the first projection dated today or
yesterday. -/
def findTargetProjection (today : ℤ) (ps : List Projection) : Option Projection :=
  ps.find? (projectionDateOk today)

/-- The P90 branch: active only on the android_p90_launch phase with the
listTimelines URL and no appVersion filter; needs at least 19 quantile
buckets, takes the 19th (index 18) in microseconds and converts to
seconds rounded to 2 decimals. -/
def p90Branch (today : ℤ) (req : Request) (s : AppState) : AppState :=
  if s.current_phase = Phase.android_p90_launch ∧ req.urlHasListTimelines = true
      ∧ req.urlHasAppVersionFilter = false then
    match req.payload with
    | .launchTimelines (t :: _) =>
      match findTargetProjection today t.projections with
      | some proj =>
        if 19 ≤ proj.quantiles.length then
          { s with
            app_data.android.p90_launch_time_seconds :=
              some (round2 (proj.quantiles.getD 18 0 / 1000000)),
            android_p90_launch_captured := true }
        else s
      | none => s
    | _ => s
  else s

/-- handle_response of the source: the three standalone branches in
textual order, then the if/elif chain. -/
def handle_response (today : ℤ) (rangeDays : ℕ) (req : Request) (s : AppState) : AppState :=
  metricsChain today rangeDays req
    (upAnrsBranch req (dominantBranch req (p90Branch today req s)))

/-! The completion supervisor and the phase sequencer. -/

/-- The bounded wait loop: flag is the completion flag's value after each
whole second; poll once per second while the flag is unset and the
elapsed count is below the remaining fuel. -/
def waitFrom (flag : ℕ → Bool) : ℕ → ℕ → ℕ
  | elapsed, 0 => elapsed
  | elapsed, fuel + 1 => if flag elapsed then elapsed else waitFrom flag (elapsed + 1) fuel

/-- The elapsed seconds when a 120-second bounded wait exits. -/
def waitElapsed (flag : ℕ → Bool) : ℕ := waitFrom flag 0 120

/-- The completion flag after the bounded wait: forced to true when the
loop exited without it. -/
def waitFinalFlag (flag : ℕ → Bool) : Bool :=
  if flag (waitElapsed flag) then flag (waitElapsed flag) else true

/-- The forced flag set performed after each deadline-bounded wait. -/
def forcePhaseFlag (ph : Phase) (s : AppState) : AppState :=
  match ph with
  | .ios_metrics => { s with ios_metrics_captured := true }
  | .ios_crashes => { s with ios_crashes_captured := true }
  | .ios_non_fatals => { s with ios_non_fatals_captured := true }
  | .up_anrs => { s with play_console_anrs_captured := true }
  | .ios_dominant_release => { s with ios_dominant_release_captured := true }
  | .android_dominant_release => { s with android_dominant_release_captured := true }
  | .android_p90_launch => { s with android_p90_launch_captured := true }
  | _ => s

/-- One phase of the sequencer: set current_phase, handle that phase's
observed responses in arrival order, then apply the bounded-deadline
forced completion where the source has one. -/
def runPhase (today : ℤ) (rangeDays : ℕ) (ph : Phase) (reqs : List Request)
    (s : AppState) : AppState :=
  forcePhaseFlag ph
    (reqs.foldl (fun st r => handle_response today rangeDays r st)
      { s with current_phase := ph })

/-- The fixed phase order of collect_app_data, with the iOS stages and
the P90 stage gated by the capability flags. -/
def phaseSequence (hasIos hasP90 : Bool) : List Phase :=
  [Phase.metrics, Phase.crashes, Phase.non_fatals, Phase.anr_metrics, Phase.anrs]
    ++ (if hasIos then [Phase.ios_metrics, Phase.ios_crashes, Phase.ios_non_fatals] else [])
    ++ [Phase.up_anrs]
    ++ (if hasIos then [Phase.ios_dominant_release] else [])
    ++ [Phase.android_dominant_release]
    ++ (if hasP90 then [Phase.android_p90_launch] else [])

/-- The freshly initialized app_data record. -/
def initialAppData : AppData :=
  { android :=
      { crash_free_rates := none, total_installs := none,
        top_crashes := [], top_non_fatals := [], all_anrs := [], up_anrs := [],
        p90_launch_time_seconds := none, dominant_release := none },
    ios :=
      { fatal_rate := none, non_fatal_rate := none,
        fatal_installs := none, non_fatal_installs := none,
        top_crashes := [], top_non_fatals := [], dominant_release := none } }

/-- The freshly initialized closure state of collect_app_data. -/
def initialState : AppState :=
  { current_phase := Phase.metrics,
    metrics_captured := false, crashes_captured := false, non_fatals_captured := false,
    anr_metrics_captured := false, ios_metrics_captured := false,
    ios_crashes_captured := false, ios_non_fatals_captured := false,
    play_console_anrs_captured := false, ios_dominant_release_captured := false,
    android_dominant_release_captured := false, android_p90_launch_captured := false,
    ios_nonfatal_issues_processed := false,
    fatal_installs := 0, non_fatal_installs := 0, anr_installs := 0,
    ios_fatal_installs := 0, ios_non_fatal_installs := 0,
    app_data := initialAppData }

/-- collect_app_data of the source, abstracted over the responses each
phase's page traffic delivers. -/
def collect_app_data (today : ℤ) (rangeDays : ℕ) (hasIos hasP90 : Bool)
    (responses : Phase → List Request) : AppState :=
  (phaseSequence hasIos hasP90).foldl
    (fun s ph => runPhase today rangeDays ph (responses ph) s) initialState

/-- The phases for which a response signature is meaningful: the phase
guard of the classifier. -/
def meaningfulFor (req : Request) (ph : Phase) : Bool :=
  (req.urlHasListTimelines && !req.urlHasAppVersionFilter
    && decide (ph = Phase.android_p90_launch))
  || (req.urlHasVenusReport
    && (decide (ph = Phase.ios_dominant_release)
      || decide (ph = Phase.android_dominant_release)))
  || (req.urlHasPlayConsoleClusters && decide (ph = Phase.up_anrs))
  || (req.urlHasMetricsReport
    && (decide (ph = Phase.metrics) || decide (ph = Phase.anr_metrics)
      || decide (ph = Phase.ios_metrics) || decide (ph = Phase.ios_crashes)
      || decide (ph = Phase.ios_non_fatals)))
  || (req.urlHasTopIssues
    && (decide (ph = Phase.crashes) || decide (ph = Phase.non_fatals)
      || decide (ph = Phase.anrs) || decide (ph = Phase.ios_crashes)
      || decide (ph = Phase.ios_non_fatals)))

/-! Lemmas about the stable descending sort. -/

theorem mem_insertByKeyDesc {α β : Type} [LinearOrder β] (key : α → β) (x z : α) :
    ∀ l : List α, z ∈ insertByKeyDesc key x l ↔ z = x ∨ z ∈ l
  | [] => by simp [insertByKeyDesc]
  | y :: ys => by
    unfold insertByKeyDesc
    split
    · simp [List.mem_cons]
    · simp only [List.mem_cons, mem_insertByKeyDesc key x z ys]
      tauto

theorem pairwise_insertByKeyDesc {α β : Type} [LinearOrder β] (key : α → β) (x : α) :
    ∀ {l : List α}, l.Pairwise (fun a b => key b ≤ key a) →
      (insertByKeyDesc key x l).Pairwise (fun a b => key b ≤ key a) := by
  intro l
  induction l with
  | nil => intro _; simp [insertByKeyDesc]
  | cons y ys ih =>
    intro hp
    rw [List.pairwise_cons] at hp
    unfold insertByKeyDesc
    split
    · rename_i hle
      refine List.Pairwise.cons ?_ (List.Pairwise.cons hp.1 hp.2)
      intro z hz
      rcases List.mem_cons.mp hz with rfl | hz
      · exact hle
      · exact le_trans (hp.1 z hz) hle
    · rename_i hgt
      push_neg at hgt
      refine List.Pairwise.cons ?_ (ih hp.2)
      intro z hz
      rcases (mem_insertByKeyDesc key x z ys).mp hz with rfl | hz
      · exact le_of_lt hgt
      · exact hp.1 z hz

theorem pairwise_sortByKeyDesc {α β : Type} [LinearOrder β] (key : α → β) :
    ∀ l : List α, (sortByKeyDesc key l).Pairwise (fun a b => key b ≤ key a)
  | [] => by simp [sortByKeyDesc]
  | x :: xs => pairwise_insertByKeyDesc key x (pairwise_sortByKeyDesc key xs)

theorem filter_insertByKeyDesc {α β : Type} [LinearOrder β] (key : α → β)
    (p : α → Bool) (hp : ∀ a b, p a = true → p b = true → key a = key b) (x : α) :
    ∀ l : List α, (insertByKeyDesc key x l).filter p = (x :: l).filter p
  | [] => rfl
  | y :: ys => by
    unfold insertByKeyDesc
    split
    · rfl
    · rename_i hgt
      push_neg at hgt
      have ih := filter_insertByKeyDesc key p hp x ys
      by_cases hx : p x = true
      · by_cases hy : p y = true
        · exact absurd (hp x y hx hy) (ne_of_lt hgt)
        · simp only [List.filter_cons, hx, hy, if_pos, Bool.false_eq_true,
            if_false, ite_true, ih]
      · simp only [List.filter_cons, hx, Bool.false_eq_true, if_false, ih]

theorem filter_sortByKeyDesc {α β : Type} [LinearOrder β] (key : α → β)
    (p : α → Bool) (hp : ∀ a b, p a = true → p b = true → key a = key b) :
    ∀ l : List α, (sortByKeyDesc key l).filter p = l.filter p
  | [] => rfl
  | x :: xs => by
    unfold sortByKeyDesc
    rw [filter_insertByKeyDesc key p hp x (sortByKeyDesc key xs), List.filter_cons,
      List.filter_cons, filter_sortByKeyDesc key p hp xs]

/-! Lemmas about the insertion-ordered grouping dict. -/

/-- A measure of an optional dict entry, zero when absent. -/
def optMeasure {β M : Type} [AddCommMonoid M] (f : β → M) : Option β → M
  | none => 0
  | some b => f b

theorem findVal_updAssoc {β : Type} (merge : β → β → β) (k k0 : String) (v : β) :
    ∀ m : List (String × β),
      findVal k (updAssoc merge m k0 v)
        = if k0 = k then
            (match findVal k m with
             | some w => some (merge w v)
             | none => some v)
          else findVal k m
  | [] => by
    by_cases h : k0 = k <;> simp [updAssoc, findVal, h]
  | (k1, v1) :: rest => by
    by_cases h10 : k1 = k0
    · by_cases h1k : k1 = k
      · subst h10; subst h1k
        simp [updAssoc, findVal]
      · have h0k : ¬ k0 = k := by rw [← h10]; exact h1k
        simp [updAssoc, findVal, h10, h1k, h0k]
    · by_cases h1k : k1 = k
      · have h0k : ¬ k0 = k := fun h => h10 (h1k.trans h.symm)
        have hk0 : ¬ k = k0 := fun h => h10 (h1k.trans h)
        simp [updAssoc, findVal, h10, h1k, h0k, hk0]
      · simp [updAssoc, findVal, h10, h1k, findVal_updAssoc merge k k0 v rest]

theorem optMeasure_foldGroup {α β M : Type} [AddCommMonoid M]
    (merge : β → β → β) (key : α → String) (ini : α → β) (f : β → M)
    (hf : ∀ a b, f (merge a b) = f a + f b) :
    ∀ (rows : List α) (m : List (String × β)) (k : String),
      optMeasure f (findVal k
          (rows.foldl (fun acc r => updAssoc merge acc (key r) (ini r)) m))
        = optMeasure f (findVal k m)
          + ((rows.filter (fun r => decide (key r = k))).map (fun r => f (ini r))).sum
  | [], m, k => by simp [optMeasure]
  | r :: rs, m, k => by
    rw [List.foldl_cons,
      optMeasure_foldGroup merge key ini f hf rs (updAssoc merge m (key r) (ini r)) k,
      findVal_updAssoc]
    by_cases hk : key r = k
    · rw [if_pos hk, List.filter_cons, if_pos (by simpa using hk)]
      cases hm : findVal k m with
      | none => simp [optMeasure, hm]
      | some w => simp [optMeasure, hm, hf, add_assoc]
    · rw [if_neg hk, List.filter_cons, if_neg (by simpa using hk)]

theorem isSome_foldGroup {α β : Type}
    (merge : β → β → β) (key : α → String) (ini : α → β) :
    ∀ (rows : List α) (m : List (String × β)) (k : String),
      (findVal k (rows.foldl (fun acc r => updAssoc merge acc (key r) (ini r)) m)).isSome
        = ((findVal k m).isSome || rows.any (fun r => decide (key r = k)))
  | [], m, k => by simp
  | r :: rs, m, k => by
    rw [List.foldl_cons, isSome_foldGroup merge key ini rs (updAssoc merge m (key r) (ini r)) k,
      findVal_updAssoc]
    by_cases hk : key r = k
    · rw [if_pos hk, List.any_cons]
      cases hm : findVal k m with
      | none => simp [hm, hk]
      | some w => simp [hm, hk]
    · rw [if_neg hk, List.any_cons]
      simp [hk]

theorem map_fst_foldGroup {α β γ : Type}
    (merge : β → β → β) (key : α → String) (ini : α → β) (t : β → γ)
    (ht : ∀ a b, t (merge a b) = t a) :
    ∀ (rows : List α) (m : List (String × β)) (k : String),
      Option.map t (findVal k
          (rows.foldl (fun acc r => updAssoc merge acc (key r) (ini r)) m))
        = (Option.map t (findVal k m)).or
            ((rows.find? (fun r => decide (key r = k))).map (fun r => t (ini r)))
  | [], m, k => by simp
  | r :: rs, m, k => by
    rw [List.foldl_cons,
      map_fst_foldGroup merge key ini t ht rs (updAssoc merge m (key r) (ini r)) k,
      findVal_updAssoc]
    by_cases hk : key r = k
    · rw [if_pos hk, List.find?_cons_of_pos _ (by simpa using hk)]
      cases hm : findVal k m with
      | none => simp [hm]
      | some w => simp [hm, ht]
    · rw [if_neg hk, List.find?_cons_of_neg _ (by simpa using hk)]

/-! Preservation lemmas about the classifier branches. -/

theorem p90Branch_phase (today : ℤ) (req : Request) (s : AppState) :
    (p90Branch today req s).current_phase = s.current_phase := by
  unfold p90Branch
  repeat' first | rfl | split

theorem dominantBranch_phase (req : Request) (s : AppState) :
    (dominantBranch req s).current_phase = s.current_phase := by
  unfold dominantBranch
  repeat' first | rfl | split

theorem upAnrsBranch_phase (req : Request) (s : AppState) :
    (upAnrsBranch req s).current_phase = s.current_phase := by
  unfold upAnrsBranch
  repeat' first | rfl | split

theorem iosRateStep_phase (ph : Phase) (s : AppState) (m : GroupedMetric) :
    (iosRateStep ph s m).current_phase = s.current_phase := by
  unfold iosRateStep
  repeat' first | rfl | split | dsimp only

theorem iosRateStep_foldl_phase (ph : Phase) (gm : List GroupedMetric) :
    ∀ s : AppState, (gm.foldl (iosRateStep ph) s).current_phase = s.current_phase := by
  induction gm with
  | nil => intro s; rfl
  | cons m ms ih =>
    intro s
    rw [List.foldl_cons, ih (iosRateStep ph s m), iosRateStep_phase]

theorem androidMetricsBody_phase (today : ℤ) (rangeDays : ℕ) (req : Request) (s : AppState) :
    (androidMetricsBody today rangeDays req s).current_phase = s.current_phase := by
  unfold androidMetricsBody
  repeat' first | rfl | split | dsimp only

theorem anrMetricsBody_phase (today : ℤ) (rangeDays : ℕ) (req : Request) (s : AppState) :
    (anrMetricsBody today rangeDays req s).current_phase = s.current_phase := by
  unfold anrMetricsBody
  repeat' first | rfl | split | dsimp only

theorem iosMetricsBody_phase (today : ℤ) (rangeDays : ℕ) (req : Request) (s : AppState) :
    (iosMetricsBody today rangeDays req s).current_phase = s.current_phase := by
  unfold iosMetricsBody
  repeat' first | rfl | exact iosRateStep_foldl_phase _ _ _ | split | dsimp only

theorem applyIssueEntries_phase (ph : Phase) (entries : List IssueEntry) (s : AppState) :
    (applyIssueEntries ph entries s).current_phase = s.current_phase := by
  unfold applyIssueEntries
  repeat' first | rfl | split | dsimp only

theorem processWith_phase (req : Request) (s : AppState) (ph : Phase) (total : ℕ) :
    (processWith req s ph total).current_phase = s.current_phase := by
  unfold processWith
  repeat' first | rfl | exact applyIssueEntries_phase _ _ _ | split | dsimp only

theorem issuesDispatch_phase (req : Request) (s : AppState) :
    (issuesDispatch req s).current_phase = s.current_phase := by
  unfold issuesDispatch
  repeat' first | rfl | exact processWith_phase _ _ _ _ | split | dsimp only

theorem metricsChain_phase (today : ℤ) (rangeDays : ℕ) (req : Request) (s : AppState) :
    (metricsChain today rangeDays req s).current_phase = s.current_phase := by
  unfold metricsChain
  split
  · exact androidMetricsBody_phase today rangeDays req s
  · split
    · exact anrMetricsBody_phase today rangeDays req s
    · split
      · exact iosMetricsBody_phase today rangeDays req s
      · split
        · exact issuesDispatch_phase req s
        · rfl

theorem handle_response_phase (today : ℤ) (rangeDays : ℕ) (req : Request) (s : AppState) :
    (handle_response today rangeDays req s).current_phase = s.current_phase := by
  unfold handle_response
  rw [metricsChain_phase, upAnrsBranch_phase, dominantBranch_phase, p90Branch_phase]

theorem p90Branch_ios (today : ℤ) (req : Request) (s : AppState) :
    (p90Branch today req s).app_data.ios = s.app_data.ios := by
  unfold p90Branch
  repeat' first | rfl | split | dsimp only

theorem upAnrsBranch_ios (req : Request) (s : AppState) :
    (upAnrsBranch req s).app_data.ios = s.app_data.ios := by
  unfold upAnrsBranch
  repeat' first | rfl | split | dsimp only

theorem dominantBranch_ios (req : Request) (s : AppState)
    (h : s.current_phase ≠ Phase.ios_dominant_release) :
    (dominantBranch req s).app_data.ios = s.app_data.ios := by
  unfold dominantBranch
  repeat' first
  | rfl
  | exact absurd ‹s.current_phase = Phase.ios_dominant_release› h
  | split
  | dsimp only

theorem androidMetricsBody_ios (today : ℤ) (rangeDays : ℕ) (req : Request) (s : AppState) :
    (androidMetricsBody today rangeDays req s).app_data.ios = s.app_data.ios := by
  unfold androidMetricsBody
  repeat' first | rfl | split | dsimp only

theorem anrMetricsBody_ios (today : ℤ) (rangeDays : ℕ) (req : Request) (s : AppState) :
    (anrMetricsBody today rangeDays req s).app_data.ios = s.app_data.ios := by
  unfold anrMetricsBody
  repeat' first | rfl | split | dsimp only

theorem issuesDispatch_ios (req : Request) (s : AppState)
    (h2 : s.current_phase ≠ Phase.ios_crashes)
    (h3 : s.current_phase ≠ Phase.ios_non_fatals) :
    (issuesDispatch req s).app_data.ios = s.app_data.ios := by
  unfold issuesDispatch processWith applyIssueEntries
  repeat' first
  | rfl
  | exact absurd (‹s.current_phase = Phase.ios_crashes ∧ s.ios_metrics_captured = true›).1 h2
  | exact absurd
      (‹s.current_phase = Phase.ios_non_fatals ∧ s.ios_metrics_captured = true›).1 h3
  | exact absurd
      (‹s.current_phase = Phase.ios_non_fatals ∧ s.ios_metrics_captured = false›).1 h3
  | split
  | dsimp only

theorem metricsChain_ios (today : ℤ) (rangeDays : ℕ) (req : Request) (s : AppState)
    (h1 : s.current_phase ≠ Phase.ios_metrics)
    (h2 : s.current_phase ≠ Phase.ios_crashes)
    (h3 : s.current_phase ≠ Phase.ios_non_fatals) :
    (metricsChain today rangeDays req s).app_data.ios = s.app_data.ios := by
  unfold metricsChain
  split
  · exact androidMetricsBody_ios today rangeDays req s
  · split
    · exact anrMetricsBody_ios today rangeDays req s
    · split
      · rename_i hcond
        rcases hcond.1 with h | h | h
        · exact absurd h h1
        · exact absurd h h2
        · exact absurd h h3
      · split
        · exact issuesDispatch_ios req s h2 h3
        · rfl

theorem handle_response_ios (today : ℤ) (rangeDays : ℕ) (req : Request) (s : AppState)
    (h : s.current_phase.startsWithIos = false) :
    (handle_response today rangeDays req s).app_data.ios = s.app_data.ios := by
  have hni : ∀ ph : Phase, ph.startsWithIos = false →
      ph ≠ Phase.ios_metrics ∧ ph ≠ Phase.ios_crashes ∧ ph ≠ Phase.ios_non_fatals
        ∧ ph ≠ Phase.ios_dominant_release := by
    intro ph hph
    cases ph <;> simp_all [Phase.startsWithIos]
  have h0 := hni s.current_phase h
  have e1 : (p90Branch today req s).current_phase = s.current_phase :=
    p90Branch_phase today req s
  have e2 : (dominantBranch req (p90Branch today req s)).current_phase = s.current_phase := by
    rw [dominantBranch_phase, e1]
  have e3 : (upAnrsBranch req (dominantBranch req (p90Branch today req s))).current_phase
      = s.current_phase := by
    rw [upAnrsBranch_phase, e2]
  unfold handle_response
  rw [metricsChain_ios _ _ _ _ (by rw [e3]; exact h0.1) (by rw [e3]; exact h0.2.1)
      (by rw [e3]; exact h0.2.2.1),
    upAnrsBranch_ios, dominantBranch_ios _ _ (by rw [e1]; exact h0.2.2.2),
    p90Branch_ios]

theorem forcePhaseFlag_app_data (ph : Phase) (s : AppState) :
    (forcePhaseFlag ph s).app_data = s.app_data := by
  unfold forcePhaseFlag
  repeat' first | rfl | split | dsimp only

theorem foldl_handle_ios (today : ℤ) (rangeDays : ℕ) (reqs : List Request) :
    ∀ s : AppState, s.current_phase.startsWithIos = false →
      ((reqs.foldl (fun st r => handle_response today rangeDays r st) s).app_data.ios
          = s.app_data.ios
        ∧ (reqs.foldl (fun st r => handle_response today rangeDays r st) s).current_phase
          = s.current_phase) := by
  induction reqs with
  | nil => intro s _; exact ⟨rfl, rfl⟩
  | cons r rs ih =>
    intro s hs
    rw [List.foldl_cons]
    have hr := handle_response_phase today rangeDays r s
    have step := ih (handle_response today rangeDays r s) (by rw [hr]; exact hs)
    refine ⟨?_, ?_⟩
    · rw [step.1, handle_response_ios today rangeDays r s hs]
    · rw [step.2, hr]

theorem runPhase_ios (today : ℤ) (rangeDays : ℕ) (ph : Phase) (reqs : List Request)
    (s : AppState) (hph : ph.startsWithIos = false) :
    (runPhase today rangeDays ph reqs s).app_data.ios = s.app_data.ios := by
  unfold runPhase
  rw [forcePhaseFlag_app_data]
  exact (foldl_handle_ios today rangeDays reqs { s with current_phase := ph } hph).1

/-! Lemmas about the bounded wait loop. -/

theorem waitFrom_le (flag : ℕ → Bool) (fuel : ℕ) :
    ∀ elapsed, waitFrom flag elapsed fuel ≤ elapsed + fuel := by
  induction fuel with
  | zero => intro e; simp [waitFrom]
  | succ n ih =>
    intro e
    simp only [waitFrom]
    split
    · omega
    · have := ih (e + 1)
      omega

theorem waitFrom_never (flag : ℕ → Bool) (h : ∀ t, flag t = false) (fuel : ℕ) :
    ∀ elapsed, waitFrom flag elapsed fuel = elapsed + fuel := by
  induction fuel with
  | zero => intro e; simp [waitFrom]
  | succ n ih =>
    intro e
    simp only [waitFrom, h e, Bool.false_eq_true, if_false]
    rw [ih (e + 1)]
    omega

/-! Stage-guard helper lemmas. -/

theorem p90Branch_not_phase (today : ℤ) (req : Request) (s : AppState)
    (h : s.current_phase ≠ Phase.android_p90_launch) :
    p90Branch today req s = s := by
  unfold p90Branch
  rw [if_neg]
  rintro ⟨hph, _⟩
  exact h hph

theorem dominantBranch_not_phase (req : Request) (s : AppState)
    (h1 : s.current_phase ≠ Phase.ios_dominant_release)
    (h2 : s.current_phase ≠ Phase.android_dominant_release) :
    dominantBranch req s = s := by
  unfold dominantBranch
  rw [if_neg]
  rintro ⟨hph | hph, _⟩
  · exact h1 hph
  · exact h2 hph

theorem upAnrsBranch_not_phase (req : Request) (s : AppState)
    (h : s.current_phase ≠ Phase.up_anrs) :
    upAnrsBranch req s = s := by
  unfold upAnrsBranch
  rw [if_neg]
  rintro ⟨hph, _⟩
  exact h hph

theorem metricsChain_no_url (today : ℤ) (rangeDays : ℕ) (req : Request) (s : AppState)
    (hmr : req.urlHasMetricsReport = false) (hti : req.urlHasTopIssues = false) :
    metricsChain today rangeDays req s = s := by
  have n1 : ¬ (s.metrics_captured = false ∧ req.urlHasMetricsReport = true) := by
    rintro ⟨_, hx⟩; rw [hmr] at hx; exact absurd hx (by decide)
  have n2 : ¬ (s.current_phase = Phase.anr_metrics ∧ req.urlHasMetricsReport = true) := by
    rintro ⟨_, hx⟩; rw [hmr] at hx; exact absurd hx (by decide)
  have n3 : ¬ ((s.current_phase = Phase.ios_metrics ∨ s.current_phase = Phase.ios_crashes
      ∨ s.current_phase = Phase.ios_non_fatals) ∧ req.urlHasMetricsReport = true) := by
    rintro ⟨_, hx⟩; rw [hmr] at hx; exact absurd hx (by decide)
  have n4 : ¬ (req.urlHasTopIssues = true) := by
    intro hx; rw [hti] at hx; exact absurd hx (by decide)
  unfold metricsChain
  rw [if_neg n1, if_neg n2, if_neg n3, if_neg n4]

theorem handle_eq_p90 (today : ℤ) (rangeDays : ℕ) (req : Request) (s : AppState)
    (hph : s.current_phase = Phase.android_p90_launch)
    (hmr : req.urlHasMetricsReport = false) (hti : req.urlHasTopIssues = false) :
    handle_response today rangeDays req s = p90Branch today req s := by
  unfold handle_response
  rw [dominantBranch_not_phase req _ (by rw [p90Branch_phase, hph]; decide)
      (by rw [p90Branch_phase, hph]; decide),
    upAnrsBranch_not_phase req _ (by rw [p90Branch_phase, hph]; decide),
    metricsChain_no_url today rangeDays req _ hmr hti]

theorem p90Branch_metricsReport (today : ℤ) (req : Request) (s : AppState)
    (gm : List GroupedMetric) (hpay : req.payload = Payload.metricsReport gm) :
    p90Branch today req s = s := by
  unfold p90Branch
  split
  · rw [hpay]
  · rfl

theorem dominantBranch_metricsReport (req : Request) (s : AppState)
    (gm : List GroupedMetric) (hpay : req.payload = Payload.metricsReport gm) :
    dominantBranch req s = s := by
  unfold dominantBranch
  split
  · rw [hpay]
  · rfl

theorem upAnrsBranch_metricsReport (req : Request) (s : AppState)
    (gm : List GroupedMetric) (hpay : req.payload = Payload.metricsReport gm) :
    upAnrsBranch req s = s := by
  unfold upAnrsBranch
  split
  · split
    · rw [hpay]
    · rfl
  · rfl

/-! Claim theorems. -/

/-- C9: a deadline-bounded phase wait whose completion flag never becomes
true exits after exactly 120 one-second polls, the flag is then force-set
true, and no 120-second bounded wait ever polls more than 120 times. -/
theorem c9_bounded_wait_terminates (flag : ℕ → Bool) (hnever : ∀ t, flag t = false) :
    waitElapsed flag = 120 ∧ waitFinalFlag flag = true
      ∧ ∀ g : ℕ → Bool, waitElapsed g ≤ 120 := by
  refine ⟨?_, ?_, ?_⟩
  · unfold waitElapsed
    rw [waitFrom_never flag hnever 120 0]
  · unfold waitFinalFlag
    rw [hnever]
    simp
  · intro g
    unfold waitElapsed
    have := waitFrom_le g 120 0
    omega

/-- Witness for C9: the constantly-false flag. -/
theorem c9_bounded_wait_terminates_witness :
    waitElapsed (fun _ => false) = 120 ∧ waitFinalFlag (fun _ => false) = true := by
  have h := c9_bounded_wait_terminates (fun _ => false) (fun _ => rfl)
  exact ⟨h.1, h.2.1⟩

theorem foldl_runPhase_ios (today : ℤ) (rangeDays : ℕ) (responses : Phase → List Request) :
    ∀ (phs : List Phase) (s : AppState), (∀ ph ∈ phs, ph.startsWithIos = false) →
      (phs.foldl (fun st ph => runPhase today rangeDays ph (responses ph) st) s).app_data.ios
        = s.app_data.ios := by
  intro phs
  induction phs with
  | nil => intro s _; rfl
  | cons p ps ih =>
    intro s hall
    rw [List.foldl_cons, ih _ (fun q hq => hall q (List.mem_cons_of_mem _ hq)),
      runPhase_ios today rangeDays p (responses p) s (hall p (List.mem_cons_self _ _))]

/-- C10: an app configured without iOS leaves every iOS field of its
result at the initial empty or null value, whatever responses arrive:
top crashes and top non-fatals stay empty, the crash-free-rate and
total-installs keys stay absent, and the dominant release stays null. -/
theorem c10_no_ios_fields_without_ios (today : ℤ) (rangeDays : ℕ) (hasP90 : Bool)
    (responses : Phase → List Request) :
    (collect_app_data today rangeDays false hasP90 responses).app_data.ios.top_crashes = []
      ∧ (collect_app_data today rangeDays false hasP90 responses).app_data.ios.top_non_fatals
        = []
      ∧ (collect_app_data today rangeDays false hasP90 responses).app_data.ios.fatal_rate
        = none
      ∧ (collect_app_data today rangeDays false hasP90 responses).app_data.ios.non_fatal_rate
        = none
      ∧ (collect_app_data today rangeDays false hasP90 responses).app_data.ios.fatal_installs
        = none
      ∧ (collect_app_data today rangeDays false hasP90
          responses).app_data.ios.non_fatal_installs = none
      ∧ (collect_app_data today rangeDays false hasP90
          responses).app_data.ios.dominant_release = none := by
  have hseq : ∀ ph ∈ phaseSequence false hasP90, ph.startsWithIos = false := by
    cases hasP90 <;> decide
  have key : (collect_app_data today rangeDays false hasP90 responses).app_data.ios
      = initialState.app_data.ios := by
    unfold collect_app_data
    exact foldl_runPhase_ios today rangeDays responses (phaseSequence false hasP90)
      initialState hseq
  rw [key]
  exact ⟨rfl, rfl, rfl, rfl, rfl, rfl, rfl⟩

/-- C6: the top-N selection the handler applies to grouped clusters (for
Firebase issue lists, key impacted devices; for Play-console ANRs, key
impact percentage) returns at most 3 entries, sorted descending by the
ranking key, and the sort is stable: for every key value, the entries
carrying that value appear in the sorted list exactly in first-seen
order. -/
theorem c6_top3_sorted_stable (gs : List GIssue) (ps : List (String × AnrAcc)) :
    (((sortByKeyDesc (fun g => g.impactedDevicesCount) gs).take 3).length ≤ 3
      ∧ ((sortByKeyDesc (fun g => g.impactedDevicesCount) gs).take 3).Pairwise
          (fun a b => b.impactedDevicesCount ≤ a.impactedDevicesCount)
      ∧ ∀ v : ℕ, (sortByKeyDesc (fun g => g.impactedDevicesCount) gs).filter
            (fun g => decide (g.impactedDevicesCount = v))
          = gs.filter (fun g => decide (g.impactedDevicesCount = v)))
    ∧ (((sortByKeyDesc (fun p => p.2.impact_percentage) ps).take 3).length ≤ 3
      ∧ ((sortByKeyDesc (fun p => p.2.impact_percentage) ps).take 3).Pairwise
          (fun a b => b.2.impact_percentage ≤ a.2.impact_percentage)
      ∧ ∀ v : ℚ, (sortByKeyDesc (fun p => p.2.impact_percentage) ps).filter
            (fun p => decide (p.2.impact_percentage = v))
          = ps.filter (fun p => decide (p.2.impact_percentage = v))) := by
  constructor
  · refine ⟨?_, ?_, ?_⟩
    · rw [List.length_take]
      exact min_le_left _ _
    · exact List.Pairwise.sublist (List.take_sublist 3 _)
        (pairwise_sortByKeyDesc (fun g => g.impactedDevicesCount) gs)
    · intro v
      exact filter_sortByKeyDesc (fun g => g.impactedDevicesCount) _
        (fun a b ha hb => by
          have ha2 : a.impactedDevicesCount = v := of_decide_eq_true ha
          have hb2 : b.impactedDevicesCount = v := of_decide_eq_true hb
          show a.impactedDevicesCount = b.impactedDevicesCount
          rw [ha2, hb2]) gs
  · refine ⟨?_, ?_, ?_⟩
    · rw [List.length_take]
      exact min_le_left _ _
    · exact List.Pairwise.sublist (List.take_sublist 3 _)
        (pairwise_sortByKeyDesc (fun p => p.2.impact_percentage) ps)
    · intro v
      exact filter_sortByKeyDesc (fun p => p.2.impact_percentage) _
        (fun a b ha hb => by
          have ha2 : a.2.impact_percentage = v := of_decide_eq_true ha
          have hb2 : b.2.impact_percentage = v := of_decide_eq_true hb
          show a.2.impact_percentage = b.2.impact_percentage
          rw [ha2, hb2]) ps

theorem impactPercent_eq_floor (total d : ℕ) (h : 0 < total) :
    impactPercent total d = ⌊(d : ℚ) / (total : ℚ) * 100⌋₊ := by
  rw [impactPercent, if_pos h, div_mul_eq_mul_div]
  rw [show ((d : ℚ) * 100) = ((d * 100 : ℕ) : ℚ) by push_cast; ring]
  rw [Nat.floor_div_nat, Nat.floor_natCast]

/-- The two-row NullPointerException fixture of the spec. -/
def c7FixtureReq : Request :=
  { urlHasListTimelines := false, urlHasAppVersionFilter := false,
    urlHasVenusReport := false, urlHasPlayConsoleClusters := false,
    bodyHasAnrCriteria := false, urlHasMetricsReport := false, urlHasTopIssues := true,
    payload := Payload.topIssues
      [{ title := some "t1", subtitle := some "NullPointerException",
         impactedDevicesCount := 10, eventsCount := 50 },
       { title := some "t2", subtitle := some "NullPointerException",
         impactedDevicesCount := 5, eventsCount := 20 }] }

/-- The crashes-phase state with 1000 captured fatal installs. -/
def c7FixtureState : AppState :=
  { initialState with
    current_phase := Phase.crashes, metrics_captured := true, fatal_installs := 1000 }

/-- C7: with positive total installs, every ranked entry's impact
percentage is the integer floor of impactedDevices / totalInstalls times
100; the concrete two-row NullPointerException fixture against 1000
installs yields the single grouped entry with 15 devices, 70 events and
impact 1. -/
theorem c7_impact_floor (total : ℕ) (gs : List GIssue) (h : 0 < total) :
    (∀ e ∈ buildEntries total gs,
        e.impact_percentage = ⌊(e.impacted_devices : ℚ) / (total : ℚ) * 100⌋₊)
      ∧ (handle_response 0 7 c7FixtureReq c7FixtureState).app_data.android.top_crashes
        = [{ rank := 1, name := "NullPointerException", impact_percentage := 1,
             impacted_devices := 15, events := 70 }] := by
  constructor
  · intro e he
    unfold buildEntries at he
    rw [List.mem_map] at he
    obtain ⟨p, _, rfl⟩ := he
    exact impactPercent_eq_floor total p.2.impactedDevicesCount h
  · rfl

/-- Witness for C7: the fixture entry against 1000 installs. -/
theorem c7_impact_floor_witness :
    ({ rank := 1, name := "NullPointerException", impact_percentage := 1,
       impacted_devices := 15, events := 70 } : IssueEntry).impact_percentage
      = ⌊(({ rank := 1, name := "NullPointerException", impact_percentage := 1,
             impacted_devices := 15, events := 70 } : IssueEntry).impacted_devices : ℚ)
          / ((1000 : ℕ) : ℚ) * 100⌋₊ :=
  (c7_impact_floor 1000
    [{ title := "NullPointerException", original_title := "t1",
       subtitle := "NullPointerException", impactedDevicesCount := 15, eventsCount := 70 }]
    (by norm_num)).1 _ (by decide)

/-- C1: a metrics-report response whose embedded date range fails
is_valid_date_range leaves every crash-free-rate and total-installs
field of the result, Android and iOS alike, unchanged. -/
theorem c1_invalid_range_preserves_rates (today : ℤ) (rangeDays : ℕ) (req : Request)
    (s : AppState) (gm : List GroupedMetric) (m : GroupedMetric)
    (gmtl : List GroupedMetric) (iv : IntervalMetric) (ivtl : List IntervalMetric)
    (hpay : req.payload = Payload.metricsReport gm)
    (hgm : gm = m :: gmtl) (hiv : m.intervalMetrics = iv :: ivtl)
    (hbad : is_valid_date_range today rangeDays iv.startTime iv.endTime = false) :
    (handle_response today rangeDays req s).app_data.android.crash_free_rates
        = s.app_data.android.crash_free_rates
      ∧ (handle_response today rangeDays req s).app_data.android.total_installs
        = s.app_data.android.total_installs
      ∧ (handle_response today rangeDays req s).app_data.ios.fatal_rate
        = s.app_data.ios.fatal_rate
      ∧ (handle_response today rangeDays req s).app_data.ios.non_fatal_rate
        = s.app_data.ios.non_fatal_rate
      ∧ (handle_response today rangeDays req s).app_data.ios.fatal_installs
        = s.app_data.ios.fatal_installs
      ∧ (handle_response today rangeDays req s).app_data.ios.non_fatal_installs
        = s.app_data.ios.non_fatal_installs := by
  have hvalid : payloadDateValid today rangeDays gm = false := by
    rw [hgm]
    simp [payloadDateValid, hiv, hbad]
  have hres : handle_response today rangeDays req s = s
      ∨ handle_response today rangeDays req s
        = { s with ios_nonfatal_issues_processed := true } := by
    unfold handle_response
    rw [p90Branch_metricsReport today req s gm hpay,
      dominantBranch_metricsReport req s gm hpay,
      upAnrsBranch_metricsReport req s gm hpay]
    unfold metricsChain
    split
    · left
      simp [androidMetricsBody, hpay, hvalid]
    · split
      · left
        simp [anrMetricsBody, hpay, hvalid]
      · split
        · left
          simp [iosMetricsBody, hpay, hvalid]
        · split
          · unfold issuesDispatch
            split
            · left; simp [processWith, hpay]
            · split
              · left; simp [processWith, hpay]
              · split
                · left; simp [processWith, hpay]
                · split
                  · left; simp [processWith, hpay]
                  · split
                    · left; simp [processWith, hpay]
                    · split
                      · right; rfl
                      · left; rfl
          · left
            rfl
  rcases hres with h | h <;> rw [h] <;> exact ⟨rfl, rfl, rfl, rfl, rfl, rfl⟩

/-- Witness for C1: a stale 30-day payload against a 7-day window. -/
theorem c1_invalid_range_preserves_rates_witness :
    (handle_response 100 7
        { urlHasListTimelines := false, urlHasAppVersionFilter := false,
          urlHasVenusReport := false, urlHasPlayConsoleClusters := false,
          bodyHasAnrCriteria := false, urlHasMetricsReport := true,
          urlHasTopIssues := false,
          payload := Payload.metricsReport
            [{ fatality := some "FATAL",
               intervalMetrics := [{ startTime := some 71, endTime := some 100,
                                     ratioVal := some (1 / 2),
                                     totalCrashlyticsInstalls := some 5 }] }] }
        initialState).app_data.android.crash_free_rates
      = initialState.app_data.android.crash_free_rates :=
  (c1_invalid_range_preserves_rates 100 7 _ initialState _ _ [] _ [] rfl rfl rfl
    (by decide)).1

/-- One grouped metric carrying one interval, as the fixtures use. -/
def mkMetric (f : String) (st en : ℤ) (r : ℚ) (n : ℕ) : GroupedMetric :=
  { fatality := some f,
    intervalMetrics := [{ startTime := some st, endTime := some en,
                          ratioVal := some r, totalCrashlyticsInstalls := some n }] }

/-- The 7-day metrics-report fixture of the spec, dated for session day 6. -/
def c2FixtureReq : Request :=
  { urlHasListTimelines := false, urlHasAppVersionFilter := false, urlHasVenusReport := false,
    urlHasPlayConsoleClusters := false, bodyHasAnrCriteria := false,
    urlHasMetricsReport := true, urlHasTopIssues := false,
    payload := Payload.metricsReport
      [mkMetric "FATAL" 0 6 (97 / 100) 1000, mkMetric "NON_FATAL" 0 6 (95 / 100) 1000] }

theorem metrics_rates_general (today : ℤ) (rangeDays : ℕ) (req : Request) (s : AppState)
    (rf rn : ℚ) (nf nn : ℕ) (st en : ℤ)
    (hpay : req.payload = Payload.metricsReport
      [mkMetric "FATAL" st en rf nf, mkMetric "NON_FATAL" st en rn nn])
    (hmc : s.metrics_captured = false)
    (hmr : req.urlHasMetricsReport = true)
    (hen : en = today) (hst : st = today - (rangeDays - 1 : ℕ)) :
    (handle_response today rangeDays req s).app_data.android.crash_free_rates
        = some (some (round2 (rf * 100)), some (round2 (rn * 100)))
      ∧ (handle_response today rangeDays req s).app_data.android.total_installs
        = some (nf, nn) := by
  unfold handle_response
  rw [p90Branch_metricsReport today req s _ hpay,
    dominantBranch_metricsReport req s _ hpay,
    upAnrsBranch_metricsReport req s _ hpay]
  unfold metricsChain
  rw [if_pos ⟨hmc, hmr⟩]
  constructor <;>
    simp [androidMetricsBody, hpay, payloadDateValid, is_valid_date_range, rateStep,
      mkMetric, hen, hst]

/-- C2: on a valid-dated metrics-report payload, each FATAL and
NON_FATAL row yields a crash-free rate of its ratio times 100 rounded to
2 decimals plus its install count; the spec's 7-day fixture with ratios
0.97 and 0.95 and 1000 installs yields rates 97 and 95 and installs
1000 and 1000. -/
theorem c2_metrics_rates (today : ℤ) (rangeDays : ℕ) (req : Request) (s : AppState)
    (rf rn : ℚ) (nf nn : ℕ) (st en : ℤ)
    (hpay : req.payload = Payload.metricsReport
      [mkMetric "FATAL" st en rf nf, mkMetric "NON_FATAL" st en rn nn])
    (hmc : s.metrics_captured = false)
    (hmr : req.urlHasMetricsReport = true)
    (hen : en = today) (hst : st = today - (rangeDays - 1 : ℕ)) :
    ((handle_response today rangeDays req s).app_data.android.crash_free_rates
        = some (some (round2 (rf * 100)), some (round2 (rn * 100)))
      ∧ (handle_response today rangeDays req s).app_data.android.total_installs
        = some (nf, nn))
      ∧ ((handle_response 6 7 c2FixtureReq initialState).app_data.android.crash_free_rates
        = some (some 97, some 95)
      ∧ (handle_response 6 7 c2FixtureReq initialState).app_data.android.total_installs
        = some (1000, 1000)) := by
  constructor
  · exact metrics_rates_general today rangeDays req s rf rn nf nn st en hpay hmc hmr hen hst
  · have h := metrics_rates_general 6 7 c2FixtureReq initialState (97 / 100) (95 / 100)
      1000 1000 0 6 rfl rfl rfl (by norm_num) (by norm_num)
    refine ⟨?_, h.2⟩
    rw [h.1]
    norm_num [round2]

/-- Witness for C2: the fixture request against the fresh state. -/
theorem c2_metrics_rates_witness :
    (handle_response 6 7 c2FixtureReq initialState).app_data.android.crash_free_rates
        = some (some 97, some 95)
      ∧ (handle_response 6 7 c2FixtureReq initialState).app_data.android.total_installs
        = some (1000, 1000) :=
  (c2_metrics_rates 6 7 c2FixtureReq initialState (97 / 100) (95 / 100) 1000 1000 0 6
    rfl rfl rfl (by norm_num) (by norm_num)).2

/-- C4: a response whose URL matches signatures only of phases other
than the currently active one is ignored entirely; the hypothesis that
metrics_captured is set once the sequencer has left the metrics phase is
the invariant the unbounded first wait loop establishes. -/
theorem c4_phase_guard_ignores (today : ℤ) (rangeDays : ℕ) (req : Request) (s : AppState)
    (h1 : s.current_phase ≠ Phase.metrics → s.metrics_captured = true)
    (h2 : meaningfulFor req s.current_phase = false) :
    handle_response today rangeDays req s = s := by
  have hp90 : p90Branch today req s = s := by
    unfold p90Branch
    rw [if_neg]
    rintro ⟨hph, hlt, hfv⟩
    simp [meaningfulFor, hph, hlt, hfv] at h2
  have hdom : dominantBranch req s = s := by
    unfold dominantBranch
    rw [if_neg]
    rintro ⟨hph | hph, hv⟩ <;> simp [meaningfulFor, hph, hv] at h2
  have hup : upAnrsBranch req s = s := by
    unfold upAnrsBranch
    rw [if_neg]
    rintro ⟨hph, hv⟩
    simp [meaningfulFor, hph, hv] at h2
  have n1 : ¬ (s.metrics_captured = false ∧ req.urlHasMetricsReport = true) := by
    rintro ⟨hmc, hmr⟩
    have hph : s.current_phase = Phase.metrics := by
      by_contra hne
      rw [h1 hne] at hmc
      exact absurd hmc (by decide)
    simp [meaningfulFor, hph, hmr] at h2
  have n2 : ¬ (s.current_phase = Phase.anr_metrics ∧ req.urlHasMetricsReport = true) := by
    rintro ⟨hph, hmr⟩
    simp [meaningfulFor, hph, hmr] at h2
  have n3 : ¬ ((s.current_phase = Phase.ios_metrics ∨ s.current_phase = Phase.ios_crashes
      ∨ s.current_phase = Phase.ios_non_fatals) ∧ req.urlHasMetricsReport = true) := by
    rintro ⟨hph | hph | hph, hmr⟩ <;> simp [meaningfulFor, hph, hmr] at h2
  have hdisp : req.urlHasTopIssues = true → issuesDispatch req s = s := by
    intro hti
    have d1 : ¬ (s.current_phase = Phase.crashes ∧ s.crashes_captured = false) := by
      rintro ⟨hph, _⟩
      simp [meaningfulFor, hph, hti] at h2
    have d2 : ¬ (s.current_phase = Phase.non_fatals ∧ s.non_fatals_captured = false) := by
      rintro ⟨hph, _⟩
      simp [meaningfulFor, hph, hti] at h2
    have d3 : ¬ (s.current_phase = Phase.anrs ∧ s.anr_metrics_captured = true) := by
      rintro ⟨hph, _⟩
      simp [meaningfulFor, hph, hti] at h2
    have d4 : ¬ (s.current_phase = Phase.ios_crashes ∧ s.ios_metrics_captured = true) := by
      rintro ⟨hph, _⟩
      simp [meaningfulFor, hph, hti] at h2
    have d5 : ¬ (s.current_phase = Phase.ios_non_fatals ∧ s.ios_metrics_captured = true) := by
      rintro ⟨hph, _⟩
      simp [meaningfulFor, hph, hti] at h2
    have d6 : ¬ (s.current_phase = Phase.ios_non_fatals ∧ s.ios_metrics_captured = false) := by
      rintro ⟨hph, _⟩
      simp [meaningfulFor, hph, hti] at h2
    unfold issuesDispatch
    rw [if_neg d1, if_neg d2, if_neg d3, if_neg d4, if_neg d5, if_neg d6]
  unfold handle_response
  rw [hp90, hdom, hup]
  unfold metricsChain
  rw [if_neg n1, if_neg n2, if_neg n3]
  by_cases hti : req.urlHasTopIssues = true
  · rw [if_pos hti]
    exact hdisp hti
  · rw [if_neg hti]

/-- Witness for C4: a metrics-report response arriving during the
crashes phase after the metrics were captured. -/
theorem c4_phase_guard_ignores_witness :
    handle_response 0 7
        { urlHasListTimelines := false, urlHasAppVersionFilter := false,
          urlHasVenusReport := false, urlHasPlayConsoleClusters := false,
          bodyHasAnrCriteria := false, urlHasMetricsReport := true,
          urlHasTopIssues := false, payload := Payload.metricsReport [] }
        { initialState with current_phase := Phase.crashes, metrics_captured := true }
      = { initialState with current_phase := Phase.crashes, metrics_captured := true } :=
  c4_phase_guard_ignores 0 7 _ _ (fun _ => rfl) (by decide)

/-- The dominant-release duplicate fixture: the flag is already set and a
release is already stored when a second matching response arrives. -/
def c5State : AppState :=
  { initialState with
    current_phase := Phase.ios_dominant_release,
    ios_dominant_release_captured := true,
    app_data :=
      { initialAppData with
        ios := { initialAppData.ios with dominant_release := some "1.0" } } }

/-- A second venus response carrying release 2.0. -/
def c5Req : Request :=
  { urlHasListTimelines := false, urlHasAppVersionFilter := false, urlHasVenusReport := true,
    urlHasPlayConsoleClusters := false, bodyHasAnrCriteria := false,
    urlHasMetricsReport := false, urlHasTopIssues := false,
    payload := Payload.dominantRelease
      [{ responseRows := [] }, { responseRows := [] },
       { responseRows := [{ dimensionCompoundValues := [DimVal.wrapped "2.0"] }] }] }

/-- Counterexample to C5 as stated: the iOS dominant-release phase has
its completion flag set, yet a further matching response is reprocessed
and overwrites the captured release, and this extraction is not an
issue-cluster grouping. -/
theorem c5_counterexample_reaccept :
    c5State.ios_dominant_release_captured = true
      ∧ c5State.app_data.ios.dominant_release = some "1.0"
      ∧ (handle_response 0 7 c5Req c5State).app_data.ios.dominant_release = some "2.0"
      ∧ some "2.0" ≠ c5State.app_data.ios.dominant_release :=
  ⟨rfl, rfl, rfl, by decide⟩

/-- The phase and flag combinations for which the classifier really does
guard re-acceptance behind the completion flag. -/
def onceGuarded (s : AppState) (req : Request) : Prop :=
  (s.current_phase = Phase.metrics ∧ s.metrics_captured = true
      ∧ req.urlHasMetricsReport = true ∧ req.urlHasTopIssues = false)
    ∨ (s.current_phase = Phase.crashes ∧ s.crashes_captured = true
      ∧ req.urlHasTopIssues = true ∧ req.urlHasMetricsReport = false)
    ∨ (s.current_phase = Phase.non_fatals ∧ s.non_fatals_captured = true
      ∧ req.urlHasTopIssues = true ∧ req.urlHasMetricsReport = false)

/-- C5 amended: at-most-once acceptance holds exactly where the source
checks a completion flag in the dispatch: the Android metrics phase and
the Android crashes and non-fatals issue phases; once their flag is set
a further matching response leaves the state unchanged.  The other
extractions re-accept while their phase is active, the grouping-style
ones recomputing wholly from the newest payload. -/
theorem c5_amended_once_guarded (today : ℤ) (rangeDays : ℕ) (req : Request) (s : AppState)
    (h : onceGuarded s req) :
    handle_response today rangeDays req s = s := by
  have hstages : ∀ hph : s.current_phase = Phase.metrics ∨ s.current_phase = Phase.crashes
      ∨ s.current_phase = Phase.non_fatals,
      p90Branch today req s = s ∧ dominantBranch req s = s ∧ upAnrsBranch req s = s := by
    intro hph
    refine ⟨p90Branch_not_phase today req s ?_, dominantBranch_not_phase req s ?_ ?_,
      upAnrsBranch_not_phase req s ?_⟩ <;>
      rcases hph with hph | hph | hph <;> simp [hph]
  rcases h with ⟨hph, hcap, hmr, hti⟩ | ⟨hph, hcap, hti, hmr⟩ | ⟨hph, hcap, hti, hmr⟩
  · obtain ⟨e1, e2, e3⟩ := hstages (Or.inl hph)
    unfold handle_response
    rw [e1, e2, e3]
    have n1 : ¬ (s.metrics_captured = false ∧ req.urlHasMetricsReport = true) := by
      rintro ⟨hx, _⟩
      rw [hcap] at hx
      exact absurd hx (by decide)
    have n2 : ¬ (s.current_phase = Phase.anr_metrics ∧ req.urlHasMetricsReport = true) := by
      rintro ⟨hx, _⟩
      rw [hph] at hx
      exact absurd hx (by decide)
    have n3 : ¬ ((s.current_phase = Phase.ios_metrics ∨ s.current_phase = Phase.ios_crashes
        ∨ s.current_phase = Phase.ios_non_fatals) ∧ req.urlHasMetricsReport = true) := by
      rintro ⟨hx | hx | hx, _⟩ <;> (rw [hph] at hx; exact absurd hx (by decide))
    have n4 : ¬ (req.urlHasTopIssues = true) := by
      intro hx
      rw [hti] at hx
      exact absurd hx (by decide)
    unfold metricsChain
    rw [if_neg n1, if_neg n2, if_neg n3, if_neg n4]
  · obtain ⟨e1, e2, e3⟩ := hstages (Or.inr (Or.inl hph))
    unfold handle_response
    rw [e1, e2, e3]
    have n1 : ¬ (s.metrics_captured = false ∧ req.urlHasMetricsReport = true) := by
      rintro ⟨_, hx⟩
      rw [hmr] at hx
      exact absurd hx (by decide)
    have n2 : ¬ (s.current_phase = Phase.anr_metrics ∧ req.urlHasMetricsReport = true) := by
      rintro ⟨hx, _⟩
      rw [hph] at hx
      exact absurd hx (by decide)
    have n3 : ¬ ((s.current_phase = Phase.ios_metrics ∨ s.current_phase = Phase.ios_crashes
        ∨ s.current_phase = Phase.ios_non_fatals) ∧ req.urlHasMetricsReport = true) := by
      rintro ⟨hx | hx | hx, _⟩ <;> (rw [hph] at hx; exact absurd hx (by decide))
    have d1 : ¬ (s.current_phase = Phase.crashes ∧ s.crashes_captured = false) := by
      rintro ⟨_, hx⟩
      rw [hcap] at hx
      exact absurd hx (by decide)
    have d2 : ¬ (s.current_phase = Phase.non_fatals ∧ s.non_fatals_captured = false) := by
      rintro ⟨hx, _⟩
      rw [hph] at hx
      exact absurd hx (by decide)
    have d3 : ¬ (s.current_phase = Phase.anrs ∧ s.anr_metrics_captured = true) := by
      rintro ⟨hx, _⟩
      rw [hph] at hx
      exact absurd hx (by decide)
    have d4 : ¬ (s.current_phase = Phase.ios_crashes ∧ s.ios_metrics_captured = true) := by
      rintro ⟨hx, _⟩
      rw [hph] at hx
      exact absurd hx (by decide)
    have d5 : ¬ (s.current_phase = Phase.ios_non_fatals ∧ s.ios_metrics_captured = true) := by
      rintro ⟨hx, _⟩
      rw [hph] at hx
      exact absurd hx (by decide)
    have d6 : ¬ (s.current_phase = Phase.ios_non_fatals ∧ s.ios_metrics_captured = false) := by
      rintro ⟨hx, _⟩
      rw [hph] at hx
      exact absurd hx (by decide)
    unfold metricsChain
    rw [if_neg n1, if_neg n2, if_neg n3, if_pos hti]
    unfold issuesDispatch
    rw [if_neg d1, if_neg d2, if_neg d3, if_neg d4, if_neg d5, if_neg d6]
  · obtain ⟨e1, e2, e3⟩ := hstages (Or.inr (Or.inr hph))
    unfold handle_response
    rw [e1, e2, e3]
    have n1 : ¬ (s.metrics_captured = false ∧ req.urlHasMetricsReport = true) := by
      rintro ⟨_, hx⟩
      rw [hmr] at hx
      exact absurd hx (by decide)
    have n2 : ¬ (s.current_phase = Phase.anr_metrics ∧ req.urlHasMetricsReport = true) := by
      rintro ⟨hx, _⟩
      rw [hph] at hx
      exact absurd hx (by decide)
    have n3 : ¬ ((s.current_phase = Phase.ios_metrics ∨ s.current_phase = Phase.ios_crashes
        ∨ s.current_phase = Phase.ios_non_fatals) ∧ req.urlHasMetricsReport = true) := by
      rintro ⟨hx | hx | hx, _⟩ <;> (rw [hph] at hx; exact absurd hx (by decide))
    have d1 : ¬ (s.current_phase = Phase.crashes ∧ s.crashes_captured = false) := by
      rintro ⟨hx, _⟩
      rw [hph] at hx
      exact absurd hx (by decide)
    have d2 : ¬ (s.current_phase = Phase.non_fatals ∧ s.non_fatals_captured = false) := by
      rintro ⟨_, hx⟩
      rw [hcap] at hx
      exact absurd hx (by decide)
    have d3 : ¬ (s.current_phase = Phase.anrs ∧ s.anr_metrics_captured = true) := by
      rintro ⟨hx, _⟩
      rw [hph] at hx
      exact absurd hx (by decide)
    have d4 : ¬ (s.current_phase = Phase.ios_crashes ∧ s.ios_metrics_captured = true) := by
      rintro ⟨hx, _⟩
      rw [hph] at hx
      exact absurd hx (by decide)
    have d5 : ¬ (s.current_phase = Phase.ios_non_fatals ∧ s.ios_metrics_captured = true) := by
      rintro ⟨hx, _⟩
      rw [hph] at hx
      exact absurd hx (by decide)
    have d6 : ¬ (s.current_phase = Phase.ios_non_fatals ∧ s.ios_metrics_captured = false) := by
      rintro ⟨hx, _⟩
      rw [hph] at hx
      exact absurd hx (by decide)
    unfold metricsChain
    rw [if_neg n1, if_neg n2, if_neg n3, if_pos hti]
    unfold issuesDispatch
    rw [if_neg d1, if_neg d2, if_neg d3, if_neg d4, if_neg d5, if_neg d6]

/-- Witness for C5 amended: a duplicate issues response during the
crashes phase after its flag was set. -/
theorem c5_amended_once_guarded_witness :
    handle_response 0 7
        { urlHasListTimelines := false, urlHasAppVersionFilter := false,
          urlHasVenusReport := false, urlHasPlayConsoleClusters := false,
          bodyHasAnrCriteria := false, urlHasMetricsReport := false,
          urlHasTopIssues := true, payload := Payload.topIssues [] }
        { initialState with current_phase := Phase.crashes, crashes_captured := true }
      = { initialState with current_phase := Phase.crashes, crashes_captured := true } :=
  c5_amended_once_guarded 0 7 _ _ (Or.inr (Or.inl ⟨rfl, rfl, rfl, rfl⟩))

/-- Two iOS crash rows sharing one title. -/
def c3Req : Request :=
  { urlHasListTimelines := false, urlHasAppVersionFilter := false, urlHasVenusReport := false,
    urlHasPlayConsoleClusters := false, bodyHasAnrCriteria := false,
    urlHasMetricsReport := false, urlHasTopIssues := true,
    payload := Payload.topIssues
      [{ title := some "SameCrash", subtitle := none, impactedDevicesCount := 10,
         eventsCount := 50 },
       { title := some "SameCrash", subtitle := none, impactedDevicesCount := 5,
         eventsCount := 20 }] }

/-- The iOS crashes phase with metrics captured and 1000 installs. -/
def c3State : AppState :=
  { initialState with
    current_phase := Phase.ios_crashes, ios_metrics_captured := true,
    ios_fatal_installs := 1000 }

/-- Counterexample to C3 as stated: on an iOS issue list two rows with
the same title are not grouped into one summed cluster; each row stays
its own entry, so the result holds two entries instead of one. -/
theorem c3_counterexample_ios_ungrouped :
    (handle_response 0 7 c3Req c3State).app_data.ios.top_crashes
        = [{ rank := 1, name := "SameCrash", impact_percentage := 1,
             impacted_devices := 10, events := 50 },
           { rank := 2, name := "SameCrash", impact_percentage := 0,
             impacted_devices := 5, events := 20 }]
      ∧ ((handle_response 0 7 c3Req c3State).app_data.ios.top_crashes).length ≠ 1 :=
  ⟨rfl, by decide⟩

/-- C3 amended: Android crashes and non-fatals group by subtitle, with
every subtitle-less row sharing the Unknown sentinel key and the stored
display name taken from the group's first row (falling back to its
title); ANR lists group by title and Play-console ANR clusters by
cluster name; iOS lists are not grouped at all, each row becoming its
own entry; within every non-iOS group impactedDevices and events (and,
for Play-console, affected users and events) are summed. -/
theorem issueKey_false (r : IssueRow) : issueKey false r = r.subtitleD := rfl

theorem issueKey_true (r : IssueRow) : issueKey true r = r.titleD := rfl

theorem issueInit_devices (kb : Bool) (r : IssueRow) :
    (issueInit kb r).impactedDevicesCount = r.impactedDevicesCount := rfl

theorem issueInit_events (kb : Bool) (r : IssueRow) :
    (issueInit kb r).eventsCount = r.eventsCount := rfl

theorem issueInit_title (kb : Bool) (r : IssueRow) :
    (issueInit kb r).title = issueDisplay kb r := rfl

theorem anrInit_affected (r : AnrRow) : (anrInit r).affected_users = r.affectedUsers := rfl

theorem anrInit_events (r : AnrRow) : (anrInit r).event_count = r.eventCount := rfl

theorem c3_amended_grouping_keys :
    (∀ (rows : List IssueRow) (k : String),
        optMeasure GIssue.impactedDevicesCount (findVal k (groupIssueRows false rows))
          = ((rows.filter (fun r => decide (r.subtitleD = k))).map
              (fun r => r.impactedDevicesCount)).sum
        ∧ optMeasure GIssue.eventsCount (findVal k (groupIssueRows false rows))
          = ((rows.filter (fun r => decide (r.subtitleD = k))).map
              (fun r => r.eventsCount)).sum
        ∧ Option.map GIssue.title (findVal k (groupIssueRows false rows))
          = (rows.find? (fun r => decide (r.subtitleD = k))).map
              (fun r => issueDisplay false r))
      ∧ (∀ (rows : List IssueRow) (k : String),
        optMeasure GIssue.impactedDevicesCount (findVal k (groupIssueRows true rows))
          = ((rows.filter (fun r => decide (r.titleD = k))).map
              (fun r => r.impactedDevicesCount)).sum
        ∧ optMeasure GIssue.eventsCount (findVal k (groupIssueRows true rows))
          = ((rows.filter (fun r => decide (r.titleD = k))).map
              (fun r => r.eventsCount)).sum)
      ∧ (∀ (b : Bool) (rows : List IssueRow),
        (iosIssueEntries b rows).map GIssue.impactedDevicesCount
            = rows.map IssueRow.impactedDevicesCount
          ∧ (iosIssueEntries b rows).map GIssue.eventsCount
            = rows.map IssueRow.eventsCount
          ∧ (iosIssueEntries b rows).length = rows.length)
      ∧ (∀ (rows : List AnrRow) (k : String),
        optMeasure AnrAcc.affected_users (findVal k (groupAnrRows rows))
          = ((rows.filter (fun r => decide (r.nameD = k))).map
              (fun r => r.affectedUsers)).sum
        ∧ optMeasure AnrAcc.event_count (findVal k (groupAnrRows rows))
          = ((rows.filter (fun r => decide (r.nameD = k))).map
              (fun r => r.eventCount)).sum) := by
  refine ⟨?_, ?_, ?_, ?_⟩
  · intro rows k
    refine ⟨?_, ?_, ?_⟩
    · simpa [optMeasure, findVal, groupIssueRows, issueKey_false, issueInit_devices] using
        optMeasure_foldGroup mergeIssue (issueKey false) (issueInit false)
          GIssue.impactedDevicesCount (fun a b => rfl) rows [] k
    · simpa [optMeasure, findVal, groupIssueRows, issueKey_false, issueInit_events] using
        optMeasure_foldGroup mergeIssue (issueKey false) (issueInit false)
          GIssue.eventsCount (fun a b => rfl) rows [] k
    · simpa [findVal, groupIssueRows, issueKey_false, issueInit_title] using
        map_fst_foldGroup mergeIssue (issueKey false) (issueInit false)
          GIssue.title (fun a b => rfl) rows [] k
  · intro rows k
    refine ⟨?_, ?_⟩
    · simpa [optMeasure, findVal, groupIssueRows, issueKey_true, issueInit_devices] using
        optMeasure_foldGroup mergeIssue (issueKey true) (issueInit true)
          GIssue.impactedDevicesCount (fun a b => rfl) rows [] k
    · simpa [optMeasure, findVal, groupIssueRows, issueKey_true, issueInit_events] using
        optMeasure_foldGroup mergeIssue (issueKey true) (issueInit true)
          GIssue.eventsCount (fun a b => rfl) rows [] k
  · intro b rows
    refine ⟨?_, ?_, ?_⟩
    · rw [iosIssueEntries, List.map_map]
      rfl
    · rw [iosIssueEntries, List.map_map]
      rfl
    · rw [iosIssueEntries, List.length_map]
  · intro rows k
    refine ⟨?_, ?_⟩
    · simpa [optMeasure, findVal, groupAnrRows, anrInit_affected] using
        optMeasure_foldGroup mergeAnr AnrRow.nameD anrInit
          AnrAcc.affected_users (fun a b => rfl) rows [] k
    · simpa [optMeasure, findVal, groupAnrRows, anrInit_events] using
        optMeasure_foldGroup mergeAnr AnrRow.nameD anrInit
          AnrAcc.event_count (fun a b => rfl) rows [] k

/-- A listTimelines payload whose first projection is dated yesterday
and whose second is dated today, with different P90 buckets. -/
def c8Req : Request :=
  { urlHasListTimelines := true, urlHasAppVersionFilter := false, urlHasVenusReport := false,
    urlHasPlayConsoleClusters := false, bodyHasAnrCriteria := false,
    urlHasMetricsReport := false, urlHasTopIssues := false,
    payload := Payload.launchTimelines
      [{ projections :=
          [{ startDate := some 9, quantiles := List.replicate 19 (2000000 : ℚ) },
           { startDate := some 10, quantiles := List.replicate 19 (3000000 : ℚ) }] }] }

/-- The launch-time phase on session day 10. -/
def c8State : AppState :=
  { initialState with current_phase := Phase.android_p90_launch }

/-- Counterexample to C8 as stated: with a today-dated projection
present (buckets worth 3 seconds) but listed after a yesterday-dated
one (buckets worth 2 seconds), the source takes the first projection
dated today or yesterday, so the captured P90 is 2 seconds, not the 3
seconds the today-preferring selection would give. -/
theorem c8_counterexample_first_match :
    (handle_response 10 7 c8Req c8State).app_data.android.p90_launch_time_seconds = some 2
      ∧ ((2 : ℚ) ≠ 3) := by
  constructor
  · rw [handle_eq_p90 10 7 c8Req c8State rfl rfl rfl]
    show (p90Branch 10 c8Req c8State).app_data.android.p90_launch_time_seconds = some 2
    have h : (p90Branch 10 c8Req c8State).app_data.android.p90_launch_time_seconds
        = some (round2 ((List.replicate 19 (2000000 : ℚ)).getD 18 0 / 1000000)) := rfl
    rw [h]
    norm_num [round2]
  · norm_num

/-- C8 amended: the extraction selects the first projection in payload
order whose start date is today or yesterday; with at least 19 quantile
buckets it captures bucket 19 (1-indexed) in microseconds converted to
seconds and rounded to 2 decimals, with fewer buckets or no such
projection it leaves the field and the state untouched, and being a
total function it raises nothing. -/
theorem c8_amended_first_dated_projection (today : ℤ) (rangeDays : ℕ) (req : Request)
    (s : AppState) (tl : Timeline) (rest : List Timeline)
    (hph : s.current_phase = Phase.android_p90_launch)
    (hlt : req.urlHasListTimelines = true)
    (hfv : req.urlHasAppVersionFilter = false)
    (hmr : req.urlHasMetricsReport = false)
    (hti : req.urlHasTopIssues = false)
    (hpay : req.payload = Payload.launchTimelines (tl :: rest)) :
    (∀ proj, findTargetProjection today tl.projections = some proj →
        (19 ≤ proj.quantiles.length →
          (handle_response today rangeDays req s).app_data.android.p90_launch_time_seconds
              = some (round2 (proj.quantiles.getD 18 0 / 1000000))
            ∧ (handle_response today rangeDays req s).android_p90_launch_captured = true)
        ∧ (proj.quantiles.length < 19 → handle_response today rangeDays req s = s))
      ∧ (findTargetProjection today tl.projections = none →
          handle_response today rangeDays req s = s) := by
  have hp90 : handle_response today rangeDays req s = p90Branch today req s :=
    handle_eq_p90 today rangeDays req s hph hmr hti
  refine ⟨?_, ?_⟩
  · intro proj hfind
    constructor
    · intro hlen
      rw [hp90]
      unfold p90Branch
      rw [if_pos ⟨hph, hlt, hfv⟩, hpay]
      dsimp only
      rw [hfind]
      dsimp only
      rw [if_pos hlen]
      exact ⟨rfl, rfl⟩
    · intro hlen
      rw [hp90]
      unfold p90Branch
      rw [if_pos ⟨hph, hlt, hfv⟩, hpay]
      dsimp only
      rw [hfind]
      dsimp only
      rw [if_neg (by omega)]
  · intro hfind
    rw [hp90]
    unfold p90Branch
    rw [if_pos ⟨hph, hlt, hfv⟩, hpay]
    dsimp only
    rw [hfind]

/-- Witness for C8 amended: the dual-projection fixture captures the
first (yesterday-dated) projection's 19th bucket. -/
theorem c8_amended_first_dated_projection_witness :
    (handle_response 10 7 c8Req c8State).app_data.android.p90_launch_time_seconds
        = some (round2 (((List.replicate 19 (2000000 : ℚ)).getD 18 0) / 1000000))
      ∧ (handle_response 10 7 c8Req c8State).android_p90_launch_captured = true :=
  ((c8_amended_first_dated_projection 10 7 c8Req c8State _ _ rfl rfl rfl rfl rfl rfl).1
    { startDate := some 9, quantiles := List.replicate 19 (2000000 : ℚ) } rfl).1
    (by decide)

end AV
